import Mathlib

/-!
Shallow embedding of the zkevm-cashapp payment page
(`src/pages/index.tsx` and `src/const/chains.ts`).

The page is a React component.  Its logic is embedded as pure Lean
functions: the `handlePay` handler becomes a function from the pre-call
UI state and the external collaborators' behaviour to a record of the
toasts raised, the transfer calls issued, the post-call UI state and
whether an exception escaped the handler.  Machine integers do not
occur: ethers BigNumbers are arbitrary precision, embedded as `Int`.
-/

namespace ZkCashApp

/-! ### `src/const/chains.ts` -/

/-- A thirdweb chain object, reduced to the only field the page uses. -/
structure Chain where
  chainId : Nat
  deriving DecidableEq, Repr

/-- `PolygonZkevm` from `@thirdweb-dev/chains` (chain id 1101). -/
def PolygonZkevm : Chain := { chainId := 1101 }

/-- `PolygonZkevmTestnet` from `@thirdweb-dev/chains` (chain id 1442). -/
def PolygonZkevmTestnet : Chain := { chainId := 1442 }

/-- `export const IS_DEV_ENV = process.env.NODE_ENV === "development"`. -/
def IS_DEV_ENV (nodeEnv : String) : Bool := nodeEnv == "development"

/-- `const DEVELOPMENT_CHAIN = PolygonZkevmTestnet`. -/
def DEVELOPMENT_CHAIN : Chain := PolygonZkevmTestnet

/-- `const PRODUCTION_CHAIN = PolygonZkevmTestnet` (the source assigns the
testnet here as well, even though it imports `PolygonZkevm`). -/
def PRODUCTION_CHAIN : Chain := PolygonZkevmTestnet

/-- `export const CHAIN = IS_DEV_ENV ? DEVELOPMENT_CHAIN : PRODUCTION_CHAIN`,
as a function of the `NODE_ENV` value fixed at process start. -/
def CHAIN (nodeEnv : String) : Chain :=
  if IS_DEV_ENV nodeEnv then DEVELOPMENT_CHAIN else PRODUCTION_CHAIN

/-! ### `ethers.utils.parseEther`

`parseEther(value)` is `parseFixed(value, 18)` from ethers v5.  The JS
function returns a BigNumber or throws; the embedding returns
`Option Int`, with `none` for every throwing input. -/

/-- Numeric value of a digit string (all ASCII digits at every call
site), as `BigNumber.from` reads it. -/
def digitsVal (cs : List Char) : Nat :=
  cs.foldl (fun a c => a * 10 + (c.toNat - 48)) 0

/-- Character class of the ethers decimal-string regex `[0-9.]`. -/
def isEtherChar (c : Char) : Bool := c.isDigit || c == '.'

/-- The `while (fraction[fraction.length - 1] === "0")` trimming loop. -/
def trimTrailingZeros (cs : List Char) : List Char :=
  (cs.reverse.dropWhile (fun c => c == '0')).reverse

/-- The `while (fraction.length < multiplier.length - 1) fraction += "0"`
padding loop: pad on the right with zeros up to `decimals` characters. -/
def padFraction (cs : List Char) (decimals : Nat) : List Char :=
  cs ++ List.replicate (decimals - cs.length) '0'

/-- JS `value.split(".")`. -/
def splitOnDot : List Char → List (List Char)
  | [] => [[]]
  | '.' :: rest => [] :: splitOnDot rest
  | c :: rest =>
    match splitOnDot rest with
    | [] => [[c]]
    | g :: gs => (c :: g) :: gs

/-- Combine a whole part and a fraction part into the scaled integer
(the tail of ethers `parseFixed` after its error checks). -/
def parseFixedParts (negative : Bool) (w f : List Char) (decimals : Nat) : Int :=
  let whole := if w = [] then ['0'] else w
  let fraction0 := trimTrailingZeros (if f = [] then ['0'] else f)
  let fraction1 := if fraction0 = [] then ['0'] else fraction0
  let fraction2 := padFraction fraction1 decimals
  let wei : Int := (digitsVal whole : Int) * (10 : Int) ^ decimals + (digitsVal fraction2 : Int)
  if negative then -wei else wei

/-- ethers v5 `parseFixed(value, decimals)`:
regex check `^-?[0-9.]+$`, strip the sign, reject a bare `"."`, split on
`"."` rejecting more than two components, default empty whole/fraction
parts to `"0"`, trim the fraction's trailing zeros, reject a fraction
longer than `decimals`, pad it back to `decimals` digits, and combine. -/
def parseFixed (value : String) (decimals : Nat) : Option Int :=
  let chars := value.toList
  let negative : Bool := match chars with | '-' :: _ => true | _ => false
  let v := if negative then chars.drop 1 else chars
  if v.isEmpty || !(v.all isEtherChar) then none
  else if v = ['.'] then none
  else
    match splitOnDot v with
    | [w] => some (parseFixedParts negative w [] decimals)
    | [w, f] =>
      let fraction := trimTrailingZeros (if f = [] then ['0'] else f)
      if fraction.length > decimals then none
      else some (parseFixedParts negative w f decimals)
    | _ => none

/-- `ethers.utils.parseEther(value)` is `parseFixed(value, 18)`. -/
def parseEther (value : String) : Option Int :=
  parseFixed value 18

/-! ### Data shapes of the collaborators -/

/-- A Lens `Profile`, reduced to the fields the page reads. -/
structure Profile where
  id : String
  name : Option String
  handle : Option String
  ownedBy : String
  deriving DecidableEq, Repr

/-- The `useBalance()` data: `{value, displayValue, symbol}`.  `value` is
the wei balance as an ethers BigNumber, embedded as `Int`. -/
structure BalanceData where
  value : Int
  displayValue : String
  symbol : String
  deriving DecidableEq, Repr

/-- A transaction receipt, reduced to the `transactionHash` field. -/
structure Receipt where
  transactionHash : String
  deriving DecidableEq, Repr

/-- The result of `sdk.wallet.transfer`: `{receipt}`. -/
structure TxResult where
  receipt : Receipt
  deriving DecidableEq, Repr

/-- One `toast({title, description, variant})` call. -/
structure Toast where
  title : String
  description : String
  destructive : Bool
  deriving DecidableEq, Repr

/-- The toast of the `if (!selectedProfile)` branch. -/
def invalidProfileToast : Toast :=
  { title := "Invalid Profile selected."
    description := "Select a valid profile to send payment to."
    destructive := true }

/-- The toast of the `if (!amountBN)` branch. -/
def invalidAmountToast : Toast :=
  { title := "Invalid Amount"
    description := "Please enter a valid amount to pay."
    destructive := true }

/-- The toast of the `balance.value.lt(amountBN)` branch. -/
def insufficientBalanceToast : Toast :=
  { title := "Insufficient Balance"
    description := "You don't have enough balance to pay"
    destructive := true }

/-- The success toast, with the template string
`Transaction Hash: ${tx?.receipt.transactionHash}` filled in. -/
def successToast (hash : String) : Toast :=
  { title := "Funds sent successfully!"
    description := "Transaction Hash: " ++ hash
    destructive := false }

/-- The toast of the `catch` branch. -/
def errorToast : Toast :=
  { title := "An Error Occurred"
    description := "Something went wrong. Please try again."
    destructive := true }

/-! ### The `handlePay` handler

Inputs: the component state read by the handler (`search`,
`selectedProfile`, `amount`, `loadingPay`), the `useBalance()` data
(`none` while loading), and the thirdweb SDK (`none` when `useSDK()`
returns undefined; otherwise the behaviour of `sdk.wallet.transfer`,
which resolves to a `TxResult` or rejects).  Outputs: the toasts raised,
the transfer calls issued (recipient address, amount string), the state
after the call, and whether an exception escaped the handler. -/

/-- The component state touched by `handlePay`. -/
structure HomeState where
  search : String
  selectedProfile : Option Profile
  amount : String
  loadingPay : Bool
  deriving DecidableEq, Repr

/-- Observable outcome of one `handlePay()` invocation. -/
structure PayResult where
  toasts : List Toast
  transferCalls : List (String × String)
  state : HomeState
  threw : Bool
  deriving DecidableEq, Repr

/-- JS truthiness of `!amountBN`: an ethers BigNumber is an object, and
every object is truthy in JS, so `!amountBN` is false whatever the
numeric value (zero included). -/
def bigNumberFalsy (_amountBN : Int) : Bool := false

/-- `balance && balance.value.lt(amountBN)`. -/
def insufficientBalance (balance : Option BalanceData) (amountBN : Int) : Bool :=
  match balance with
  | some b => decide (b.value < amountBN)
  | none => false

/-- The `try { ... } catch { ... } finally { setLoadingPay(false) }` tail
of `handlePay`, reached after the three `if` checks. -/
def payTransfer (st : HomeState) (profile : Profile)
    (sdk : Option (String → String → Except Unit TxResult)) : PayResult :=
  match sdk with
  | none =>
    -- `sdk?.wallet.transfer` short-circuits: no call, `tx` is undefined,
    -- and the template string renders the hash as "undefined"
    { toasts := [successToast "undefined"]
      transferCalls := []
      state := { search := "", selectedProfile := none, amount := "", loadingPay := false }
      threw := false }
  | some transfer =>
    match transfer profile.ownedBy st.amount with
    | Except.ok tx =>
      { toasts := [successToast tx.receipt.transactionHash]
        transferCalls := [(profile.ownedBy, st.amount)]
        state := { search := "", selectedProfile := none, amount := "", loadingPay := false }
        threw := false }
    | Except.error _ =>
      { toasts := [errorToast]
        transferCalls := [(profile.ownedBy, st.amount)]
        state := { st with loadingPay := false }
        threw := false }

/-- `async function handlePay()` from `src/pages/index.tsx`:
`setLoadingPay(true)`, then `parseEther(amount)` (throws on invalid
input, escaping the handler), then the profile / `!amountBN` / balance
checks, each returning after a toast without clearing `loadingPay`,
then the transfer with its `try`/`catch`/`finally`. -/
def handlePay (st : HomeState) (balance : Option BalanceData)
    (sdk : Option (String → String → Except Unit TxResult)) : PayResult :=
  let st1 : HomeState := { st with loadingPay := true }
  match parseEther st1.amount with
  | none =>
    -- the exception from parseEther escapes: no toast, no transfer,
    -- loadingPay stays true
    { toasts := [], transferCalls := [], state := st1, threw := true }
  | some amountBN =>
    match st1.selectedProfile with
    | none =>
      { toasts := [invalidProfileToast], transferCalls := [], state := st1, threw := false }
    | some profile =>
      if bigNumberFalsy amountBN then
        { toasts := [invalidAmountToast], transferCalls := [], state := st1, threw := false }
      else if insufficientBalance balance amountBN then
        { toasts := [insufficientBalanceToast], transferCalls := [], state := st1, threw := false }
      else
        payTransfer st1 profile sdk

/-! ### The render gate of the `Home` component

`if (!address || wrongNetwork) return <connect/switch prompt>` — the
payment UI is only rendered past that guard.  The switch button's
handler is `() => switchChain(CHAIN.chainId)`; the view records the
argument that handler passes to `switchChain`. -/

/-- What `Home` renders: the gate prompt (with the connect button shown
iff no address, and the switch button carrying its `switchChain`
argument iff the network mismatches), or the payment UI. -/
inductive HomeView where
  | gatePrompt (showConnect : Bool) (switchButtonArg : Option Nat)
  | paymentUI
  deriving DecidableEq, Repr

/-- The top-level conditional of the `Home` component's render. -/
def renderHome (address : Option String) (wrongNetwork : Bool) (nodeEnv : String) : HomeView :=
  if address.isNone || wrongNetwork then
    HomeView.gatePrompt address.isNone
      (if wrongNetwork then some (CHAIN nodeEnv).chainId else none)
  else
    HomeView.paymentUI

/-! ### The debounced search value

`const [debouncedSearch] = useDebounce(search, 500)` and
`useSearchProfiles({ query: debouncedSearch })`: the search collaborator
is queried with the debounced value only.

Modelled from the spec: `useDebounce` is the third-party `use-debounce`
hook, not code of this repository; the spec describes it as a value
that lags the raw text by a fixed 500ms quiet period (trailing
debounce).  Time is discrete (milliseconds as `Nat`); the raw search
text is a list of change events `(time, value)` in chronological order;
each event schedules the value to appear `delay` later, cancelled if
another event arrives inside the delay window. -/

/-- The debounce delay used by the page, in milliseconds. -/
def DEBOUNCE_MS : Nat := 500

/-- The updates that actually fire: event `(te, v)` produces `(te + delay, v)`
unless the next event arrives before `te + delay` (which cancels it). -/
def debounceFire (delay : Nat) : List (Nat × String) → List (Nat × String)
  | [] => []
  | [e] => [(e.1 + delay, e.2)]
  | e :: e2 :: rest =>
    if e2.1 < e.1 + delay then debounceFire delay (e2 :: rest)
    else (e.1 + delay, e.2) :: debounceFire delay (e2 :: rest)

/-- The debounced value at time `t`: the value of the last fired update
no later than `t`, or the initial value when none fired yet. -/
def debouncedAt (init : String) (delay : Nat) (events : List (Nat × String)) (t : Nat) : String :=
  (debounceFire delay events).foldl (fun acc f => if f.1 ≤ t then f.2 else acc) init

/-- The query string handed to `useSearchProfiles` at time `t`: exactly
the debounced search value, with the page's 500ms delay. -/
def searchQueryAt (init : String) (events : List (Nat × String)) (t : Nat) : String :=
  debouncedAt init DEBOUNCE_MS events t

/-! ### Concrete collaborators for witnesses -/

/-- A concrete selected profile. -/
def demoProfile : Profile :=
  { id := "0x01"
    name := some "Vitalik"
    handle := some "vitalik.lens"
    ownedBy := "0xd8dA6BF26964aF9D7eEd9e03E53415D37aA96045" }

/-- A balance of exactly 1 ETH. -/
def oneEth : BalanceData :=
  { value := 1000000000000000000
    displayValue := "1.0"
    symbol := "ETH" }

/-- A transfer collaborator that always resolves with hash `0xabc`. -/
def okSdk : String → String → Except Unit TxResult :=
  fun _to _amt => Except.ok { receipt := { transactionHash := "0xabc" } }

/-- A transfer collaborator that always rejects. -/
def failSdk : String → String → Except Unit TxResult :=
  fun _to _amt => Except.error ()

/-! ## Helper lemmas -/

/-- A predicate preserved by every step of a fold holds of the fold. -/
theorem foldl_preserve {α β : Type} (f : α → β → α) (P : α → Prop) :
    ∀ (l : List β) (a : α), P a → (∀ x e, e ∈ l → P x → P (f x e)) → P (l.foldl f a) := by
  intro l
  induction l with
  | nil => intro a ha _; exact ha
  | cons e rest ih =>
    intro a ha hstep
    exact ih (f a e) (hstep a e (List.mem_cons_self e rest) ha)
      (fun x e2 he2 hx => hstep x e2 (List.mem_cons_of_mem e he2) hx)

/-- Every fired debounce update comes from an input event, delayed by
exactly the debounce delay. -/
theorem debounceFire_mem (delay : Nat) :
    ∀ (l : List (Nat × String)) (p : Nat × String), p ∈ debounceFire delay l →
      ∃ e, e ∈ l ∧ p = (e.1 + delay, e.2) := by
  intro l
  induction l with
  | nil => intro p hp; simp [debounceFire] at hp
  | cons e rest ih =>
    cases rest with
    | nil =>
      intro p hp
      simp only [debounceFire, List.mem_singleton] at hp
      exact ⟨e, List.mem_cons_self _ _, hp⟩
    | cons e2 rest2 =>
      intro p hp
      simp only [debounceFire] at hp
      by_cases hc : e2.1 < e.1 + delay
      · rw [if_pos hc] at hp
        obtain ⟨q, hq, hpq⟩ := ih p hp
        exact ⟨q, List.mem_cons_of_mem _ hq, hpq⟩
      · rw [if_neg hc] at hp
        rcases List.mem_cons.mp hp with h1 | h2
        · exact ⟨e, List.mem_cons_self _ _, h1⟩
        · obtain ⟨q, hq, hpq⟩ := ih p h2
          exact ⟨q, List.mem_cons_of_mem _ hq, hpq⟩

/-- The "Invalid Amount" toast is unreachable: whatever the state and
collaborators, `handlePay` never raises it (a BigNumber is always
truthy, so the `if (!amountBN)` guard never fires). -/
theorem invalidAmountToast_never_raised (st : HomeState) (balance : Option BalanceData)
    (sdk : Option (String → String → Except Unit TxResult)) :
    invalidAmountToast ∉ (handlePay st balance sdk).toasts := by
  unfold handlePay
  cases hpe : parseEther st.amount with
  | none => simp [hpe]
  | some a =>
    cases hp : st.selectedProfile with
    | none => simp [hpe, hp, invalidAmountToast, invalidProfileToast]
    | some p =>
      by_cases hib : insufficientBalance balance a = true
      · simp [hpe, hp, bigNumberFalsy, hib, invalidAmountToast, insufficientBalanceToast]
      · rw [Bool.not_eq_true] at hib
        cases sdk with
        | none =>
          simp [hpe, hp, bigNumberFalsy, hib, payTransfer, invalidAmountToast, successToast]
        | some f =>
          cases hf : f p.ownedBy st.amount with
          | ok tx =>
            simp [hpe, hp, bigNumberFalsy, hib, payTransfer, hf, invalidAmountToast, successToast]
          | error err =>
            simp [hpe, hp, bigNumberFalsy, hib, payTransfer, hf, invalidAmountToast, errorToast]

/-! ## Claim theorems -/

/-- Claim C1 (refuted, code bug): the claim says every amount string
that fails to parse as a positive decimal is rejected with the
"Invalid Amount" notification without invoking the transfer
collaborator.  In the code that branch is dead: `"0"` parses to the
quantity 0 (not positive), yet `handlePay` raises no "Invalid Amount"
toast and invokes the transfer with amount `"0"`; and a syntactically
invalid amount such as `"abc"` makes `parseEther` throw before any
toast. -/
theorem invalidAmount_rejection_violated :
    parseEther "0" = some 0 ∧
    (handlePay ⟨"x", some demoProfile, "0", false⟩ (some oneEth) (some okSdk)).toasts
      = [successToast "0xabc"] ∧
    (handlePay ⟨"x", some demoProfile, "0", false⟩ (some oneEth) (some okSdk)).transferCalls
      = [(demoProfile.ownedBy, "0")] ∧
    (handlePay ⟨"y", some demoProfile, "abc", false⟩ (some oneEth) (some okSdk)).toasts = [] :=
  ⟨rfl, rfl, rfl, rfl⟩

/-- Claim C2: when a profile is selected, the amount parses, the balance
is known and strictly less than the parsed amount, `handlePay` raises
exactly the "Insufficient Balance" toast and issues no transfer call. -/
theorem handlePay_insufficient_balance_rejects (st : HomeState) (b : BalanceData)
    (sdk : Option (String → String → Except Unit TxResult)) (p : Profile) (a : Int)
    (hp : st.selectedProfile = some p)
    (ha : parseEther st.amount = some a)
    (hb : b.value < a) :
    (handlePay st (some b) sdk).toasts = [insufficientBalanceToast] ∧
    (handlePay st (some b) sdk).transferCalls = [] := by
  have hib : insufficientBalance (some b) a = true := by
    simp [insufficientBalance, hb]
  constructor <;> simp [handlePay, ha, hp, bigNumberFalsy, hib]

/-- Witness for C2: balance 1 ETH, amount "2.0". -/
theorem handlePay_insufficient_balance_rejects_witness :
    (handlePay ⟨"x", some demoProfile, "2.0", false⟩ (some oneEth) (some okSdk)).toasts
      = [insufficientBalanceToast] ∧
    (handlePay ⟨"x", some demoProfile, "2.0", false⟩ (some oneEth) (some okSdk)).transferCalls
      = [] :=
  handlePay_insufficient_balance_rejects ⟨"x", some demoProfile, "2.0", false⟩ oneEth
    (some okSdk) demoProfile 2000000000000000000 rfl rfl (by decide)

/-- Claim C3 counterexample: with no profile selected and the initial
amount `""`, `handlePay` raises no toast at all (the parse throws), so
it does not reject with "Invalid Profile selected." for every amount
string. -/
theorem handlePay_no_profile_empty_amount_cex :
    (handlePay ⟨"", none, "", false⟩ none none).toasts = [] ∧
    (handlePay ⟨"", none, "", false⟩ none none).threw = true :=
  ⟨rfl, rfl⟩

/-- Claim C3 (amended): if no profile is selected and the amount string
parses as a decimal, `handlePay` raises exactly the "Invalid Profile
selected." toast and issues no transfer call, for every balance. -/
theorem handlePay_no_profile_rejects (st : HomeState) (balance : Option BalanceData)
    (sdk : Option (String → String → Except Unit TxResult)) (a : Int)
    (hp : st.selectedProfile = none)
    (ha : parseEther st.amount = some a) :
    (handlePay st balance sdk).toasts = [invalidProfileToast] ∧
    (handlePay st balance sdk).transferCalls = [] := by
  constructor <;> simp [handlePay, ha, hp]

/-- Witness for C3 (amended): amount "1", no profile. -/
theorem handlePay_no_profile_rejects_witness :
    (handlePay ⟨"q", none, "1", false⟩ (some oneEth) (some okSdk)).toasts
      = [invalidProfileToast] ∧
    (handlePay ⟨"q", none, "1", false⟩ (some oneEth) (some okSdk)).transferCalls = [] :=
  handlePay_no_profile_rejects ⟨"q", none, "1", false⟩ (some oneEth) (some okSdk)
    1000000000000000000 rfl rfl

/-- Claim C4: past the three checks, if the transfer resolves with
receipt `tx` the success toast carries the transaction hash and search,
selection and amount are reset; if the transfer rejects, the generic
error toast is raised and search, selection and amount keep their
pre-call values. -/
theorem handlePay_transfer_outcome (st : HomeState) (balance : Option BalanceData)
    (f : String → String → Except Unit TxResult) (p : Profile) (a : Int)
    (hp : st.selectedProfile = some p)
    (ha : parseEther st.amount = some a)
    (hb : insufficientBalance balance a = false) :
    (∀ tx, f p.ownedBy st.amount = Except.ok tx →
      (handlePay st balance (some f)).toasts = [successToast tx.receipt.transactionHash] ∧
      (handlePay st balance (some f)).state.search = "" ∧
      (handlePay st balance (some f)).state.selectedProfile = none ∧
      (handlePay st balance (some f)).state.amount = "") ∧
    (∀ err, f p.ownedBy st.amount = Except.error err →
      (handlePay st balance (some f)).toasts = [errorToast] ∧
      (handlePay st balance (some f)).state.search = st.search ∧
      (handlePay st balance (some f)).state.selectedProfile = st.selectedProfile ∧
      (handlePay st balance (some f)).state.amount = st.amount) := by
  constructor
  · intro tx htx
    refine ⟨?_, ?_, ?_, ?_⟩ <;>
      simp [handlePay, ha, hp, bigNumberFalsy, hb, payTransfer, htx]
  · intro err herr
    refine ⟨?_, ?_, ?_, ?_⟩ <;>
      simp [handlePay, ha, hp, bigNumberFalsy, hb, payTransfer, herr]

/-- Witness for C4: amount "0.5" against 1 ETH, collaborator resolving
with hash `0xabc`: the success toast carries the hash and the selection
is cleared. -/
theorem handlePay_transfer_outcome_witness :
    (handlePay ⟨"vitalik", some demoProfile, "0.5", false⟩ (some oneEth) (some okSdk)).toasts
      = [successToast "0xabc"] ∧
    (handlePay ⟨"vitalik", some demoProfile, "0.5", false⟩ (some oneEth)
        (some okSdk)).state.selectedProfile = none :=
  let h := (handlePay_transfer_outcome ⟨"vitalik", some demoProfile, "0.5", false⟩
    (some oneEth) okSdk demoProfile 500000000000000000 rfl rfl (by decide)).1
    { receipt := { transactionHash := "0xabc" } } rfl
  ⟨h.1, h.2.2.1⟩

/-- Claim C5 counterexample: with amount `"0"` (which parses to the
non-positive quantity 0) the transfer collaborator is invoked, so the
invariant "only invoked when the amount parses to a strictly positive
quantity" is false. -/
theorem transfer_invoked_with_zero_amount_cex :
    (handlePay ⟨"x", some demoProfile, "0", false⟩ (some oneEth) (some failSdk)).transferCalls
      = [(demoProfile.ownedBy, "0")] ∧
    parseEther "0" = some 0 ∧ ¬ ((0 : Int) > 0) :=
  ⟨rfl, rfl, by decide⟩

/-- Claim C5 (amended): the transfer collaborator is only invoked when a
profile is selected, the amount string parses as a decimal quantity
(not necessarily positive), and the quantity does not exceed the
balance whenever the balance is known. -/
theorem transfer_only_after_checks (st : HomeState) (balance : Option BalanceData)
    (sdk : Option (String → String → Except Unit TxResult))
    (h : (handlePay st balance sdk).transferCalls ≠ []) :
    ∃ p a, st.selectedProfile = some p ∧ parseEther st.amount = some a ∧
      ∀ b, balance = some b → a ≤ b.value := by
  cases hpe : parseEther st.amount with
  | none => exact absurd (by simp [handlePay, hpe]) h
  | some a =>
    cases hp : st.selectedProfile with
    | none => exact absurd (by simp [handlePay, hpe, hp]) h
    | some p =>
      by_cases hib : insufficientBalance balance a = true
      · exact absurd (by simp [handlePay, hpe, hp, bigNumberFalsy, hib]) h
      · rw [Bool.not_eq_true] at hib
        refine ⟨p, a, rfl, rfl, ?_⟩
        intro b hb
        subst hb
        simp only [insufficientBalance, decide_eq_false_iff_not, not_lt] at hib
        exact hib

/-- Witness for C5 (amended): a state from which the transfer is in fact
invoked satisfies the guard. -/
theorem transfer_only_after_checks_witness :
    ∃ p a,
      (⟨"x", some demoProfile, "0.5", false⟩ : HomeState).selectedProfile = some p ∧
      parseEther (⟨"x", some demoProfile, "0.5", false⟩ : HomeState).amount = some a ∧
      ∀ b, (some oneEth : Option BalanceData) = some b → a ≤ b.value :=
  transfer_only_after_checks ⟨"x", some demoProfile, "0.5", false⟩ (some oneEth)
    (some okSdk) (by decide)

/-- Claim C6 (refuted, code bug): on the early validation rejections the
submission-in-progress flag is left `true`.  Concretely: no profile
selected, amount "1" — `handlePay` raises the "Invalid Profile
selected." toast, does not throw, and completes with `loadingPay`
still `true`. -/
theorem loadingPay_left_true_on_early_rejection :
    (handlePay ⟨"", none, "1", false⟩ (some oneEth) (some okSdk)).state.loadingPay = true ∧
    (handlePay ⟨"", none, "1", false⟩ (some oneEth) (some okSdk)).toasts
      = [invalidProfileToast] ∧
    (handlePay ⟨"", none, "1", false⟩ (some oneEth) (some okSdk)).threw = false :=
  ⟨rfl, rfl, rfl⟩

/-- Claim C7: with no address or a mismatched network, `Home` renders
the gate prompt (never the payment UI); the connect button shows iff no
address is connected, and when the network mismatches the switch button
passes exactly `CHAIN.chainId` to `switchChain`. -/
theorem renderHome_gates_payment_ui (address : Option String) (wrongNetwork : Bool)
    (nodeEnv : String)
    (h : address = none ∨ wrongNetwork = true) :
    renderHome address wrongNetwork nodeEnv =
      HomeView.gatePrompt address.isNone
        (if wrongNetwork then some (CHAIN nodeEnv).chainId else none) ∧
    renderHome address wrongNetwork nodeEnv ≠ HomeView.paymentUI := by
  have hcond : (address.isNone || wrongNetwork) = true := by
    rcases h with h | h
    · subst h; simp
    · subst h; simp
  constructor
  · simp [renderHome, hcond]
  · simp [renderHome, hcond]

/-- Witness for C7: wallet connected on the wrong network in
production: the gate shows only the switch button, carrying chain id
1442. -/
theorem renderHome_gates_payment_ui_witness :
    renderHome (some "0xme") true "production" = HomeView.gatePrompt false (some 1442) ∧
    renderHome (some "0xme") true "production" ≠ HomeView.paymentUI :=
  renderHome_gates_payment_ui (some "0xme") true "production" (Or.inr rfl)

/-- Claim C8: the search collaborator sees only the debounced value:
after a change to a fresh text `v` at time `T` (every earlier value and
the initial value differ from `v`, and later events do not move back in
time), the query value at any time `t < T + 500` is not `v`. -/
theorem debounce_quiet_period (init v : String) (T t : Nat)
    (before after : List (Nat × String))
    (ht : t < T + DEBOUNCE_MS)
    (hinit : init ≠ v)
    (hbefore : ∀ e ∈ before, e.2 ≠ v)
    (hafter : ∀ e ∈ after, T ≤ e.1) :
    searchQueryAt init (before ++ (T, v) :: after) t ≠ v := by
  unfold searchQueryAt debouncedAt
  refine foldl_preserve _ (fun s => s ≠ v) _ init hinit ?_
  intro x e he hx
  by_cases hle : e.1 ≤ t
  · simp only [if_pos hle]
    obtain ⟨q, hq, hpq⟩ := debounceFire_mem DEBOUNCE_MS _ e he
    have he2 : e.2 = q.2 := by rw [hpq]
    have he1 : e.1 = q.1 + DEBOUNCE_MS := by rw [hpq]
    rcases List.mem_append.mp hq with hqb | hqr
    · rw [he2]; exact hbefore q hqb
    · rcases List.mem_cons.mp hqr with hqT | hqa
      · exfalso
        rw [he1, hqT] at hle
        exact absurd ht (not_lt.mpr hle)
      · exfalso
        have hT := hafter q hqa
        rw [he1] at hle
        have h1 : T + DEBOUNCE_MS ≤ q.1 + DEBOUNCE_MS := Nat.add_le_add_right hT _
        exact absurd ht (not_lt.mpr (le_trans h1 hle))
  · simp only [if_neg hle]; exact hx

/-- Witness for C8: text changes to "ab" at T = 100 after "a" at 0; at
t = 599 < 600 the query value is still not "ab". -/
theorem debounce_quiet_period_witness :
    searchQueryAt "" [(0, "a"), (100, "ab")] 599 ≠ "ab" :=
  debounce_quiet_period "" "ab" 100 599 [(0, "a")] [] (by decide) (by decide)
    (by decide) (by decide)

/-- Claim C9 (refuted, code bug): the chain resolved for the session is
`PolygonZkevmTestnet` under both recognized environment options —
`PRODUCTION_CHAIN` is assigned the testnet even though the module
imports `PolygonZkevm` and documents that the export changes with the
environment — so the resolved chain does not differ between the two
options (the two library chains do have distinct ids). -/
theorem CHAIN_identical_across_environments :
    CHAIN "development" = CHAIN "production" ∧
    CHAIN "development" = PolygonZkevmTestnet ∧
    CHAIN "production" = PolygonZkevmTestnet ∧
    PolygonZkevm.chainId ≠ PolygonZkevmTestnet.chainId :=
  ⟨rfl, rfl, rfl, by decide⟩

/-- Claim C10: whenever the amount string does not parse (the empty
string included), the `parseEther` exception escapes `handlePay` before
any check: no toast, no transfer call, and `loadingPay` is left
`true`. -/
theorem handlePay_throws_on_unparseable_amount (st : HomeState) (balance : Option BalanceData)
    (sdk : Option (String → String → Except Unit TxResult))
    (h : parseEther st.amount = none) :
    (handlePay st balance sdk).threw = true ∧
    (handlePay st balance sdk).toasts = [] ∧
    (handlePay st balance sdk).transferCalls = [] ∧
    (handlePay st balance sdk).state.loadingPay = true := by
  refine ⟨?_, ?_, ?_, ?_⟩ <;> simp [handlePay, h]

/-- Witness for C10: the initial amount value `""`. -/
theorem handlePay_throws_on_unparseable_amount_witness :
    parseEther "" = none ∧
    ((handlePay ⟨"", some demoProfile, "", false⟩ (some oneEth) (some okSdk)).threw = true ∧
     (handlePay ⟨"", some demoProfile, "", false⟩ (some oneEth) (some okSdk)).toasts = [] ∧
     (handlePay ⟨"", some demoProfile, "", false⟩ (some oneEth) (some okSdk)).transferCalls
       = [] ∧
     (handlePay ⟨"", some demoProfile, "", false⟩ (some oneEth)
        (some okSdk)).state.loadingPay = true) :=
  ⟨rfl, handlePay_throws_on_unparseable_amount ⟨"", some demoProfile, "", false⟩
    (some oneEth) (some okSdk) rfl⟩

end ZkCashApp
